import Mathlib

/-!
Shallow embedding of the CRM-Igreja repository (Python/Streamlit over SQLite),
covering the role-based permission check (`modules/auth.py`, `config/settings.py`),
the person registry (`modules/pessoas.py`), the visitor / follow-up workflow
(`modules/visitantes.py`), the financial summary (`modules/financeiro.py`) and
the encrypted counseling notes (`database/db.py`, `modules/aconselhamento.py`).

Database tables are embedded as Lean lists of records; SQL `UPDATE ... WHERE`
becomes `List.map` guarded by the `WHERE` predicate, `SELECT ... WHERE` becomes
`List.filter`, and `NULL`-able columns are `Option`-typed fields.  Dates are
embedded as integer day numbers (`date + timedelta(days=n)` is integer
addition), and monetary values as rationals.
-/

namespace CRMIgreja

/-! ## RBAC: `config/settings.py` `PERFIS` and `modules/auth.py` `tem_permissao` -/

/-- The static profile table `PERFIS` from `config/settings.py`
(profile key, display name, permission list), transcribed verbatim. -/
def PERFIS : List (String × String × List String) :=
  [ ("ADMIN", "Administrador", ["*"]),
    ("PASTOR", "Pastor",
      [ "pessoas.ver", "pessoas.editar",
        "visitantes.ver", "visitantes.editar",
        "ministerios.ver", "ministerios.editar",
        "celulas.ver", "celulas.editar",
        "eventos.ver", "eventos.editar",
        "comunicacao.ver", "comunicacao.enviar",
        "aconselhamento.ver", "aconselhamento.editar",
        "dashboard.ver",
        "relatorios.ver",
        "configuracoes.usuarios", "configuracoes.igreja", "configuracoes.logs" ]),
    ("LIDER", "Líder de Ministério/Célula",
      [ "pessoas.ver",
        "visitantes.ver",
        "ministerios.ver",
        "celulas.ver", "celulas.editar_proprio",
        "eventos.ver",
        "comunicacao.ver", "comunicacao.enviar_grupo",
        "dashboard.ver_proprio" ]),
    ("SECRETARIA", "Secretaria",
      [ "pessoas.ver", "pessoas.editar",
        "visitantes.ver", "visitantes.editar",
        "ministerios.ver",
        "celulas.ver",
        "eventos.ver", "eventos.editar",
        "comunicacao.ver", "comunicacao.enviar",
        "relatorios.ver",
        "configuracoes.igreja" ]),
    ("FINANCEIRO", "Financeiro",
      [ "pessoas.ver",
        "doacoes.ver", "doacoes.editar",
        "relatorios.financeiro",
        "dashboard.financeiro" ]) ]

/-- The permission list of the FINANCEIRO profile, for instantiating the
RBAC theorems at that profile. -/
def permissoesFINANCEIRO : List String :=
  [ "pessoas.ver",
    "doacoes.ver", "doacoes.editar",
    "relatorios.financeiro",
    "dashboard.financeiro" ]

/-- Dictionary lookup `PERFIS[perfil]['permissoes']` (`None` when the key
`perfil` is absent, which `tem_permissao` tests with `perfil not in PERFIS`). -/
def lookupPermissoes (perfil : String) : Option (List String) :=
  (PERFIS.find? (fun kv => kv.1 == perfil)).map (fun kv => kv.2.2)

/-- The slice of the `usuario` dict that `tem_permissao` consults: the
`'perfil'` key (`usuario.get('perfil', '')`). -/
structure Usuario where
  perfil : String
deriving Repr, DecidableEq

/-- Python `permissao.split('.')[0]`: the text before the first dot
(the whole string when it has no dot), embedded structurally over the
character list so that it evaluates by kernel reduction. -/
def firstSegment (permissao : String) : String :=
  String.mk (permissao.toList.takeWhile (fun c => c ≠ '.'))

/-- Python `s.startswith(pre)`: the characters of `pre` are a prefix of the
characters of `s`. -/
def pyStartsWith (s pre : String) : Bool :=
  pre.toList.isPrefixOf s.toList

/-- Embeds `tem_permissao(usuario, permissao)` from `modules/auth.py` (lines 64-88).
`none` embeds a falsy `usuario` (`if not usuario: return False`); an unknown
profile returns `False`; then the three branches: wildcard `'*'`, exact
membership, and `p.startswith(permissao.split('.')[0])` over the entries. -/
def tem_permissao (usuario : Option Usuario) (permissao : String) : Bool :=
  match usuario with
  | none => false
  | some u =>
    match lookupPermissoes u.perfil with
    | none => false
    | some permissoes =>
      if permissoes.contains "*" then true
      else if permissoes.contains permissao then true
      else permissoes.any (fun p => pyStartsWith p (firstSegment permissao))

/-! ## People registry: `STATUS_PESSOA` (`config/settings.py`) and
`modules/pessoas.py` -/

/-- The ordered relationship funnel `STATUS_PESSOA` from `config/settings.py`
(status key, display name, color), transcribed verbatim. -/
def STATUS_PESSOA : List (String × String × String) :=
  [ ("visitante", "Visitante", "#FFA500"),
    ("novo_convertido", "Novo Convertido", "#90EE90"),
    ("em_integracao", "Em Integração", "#87CEEB"),
    ("membro", "Membro", "#4169E1"),
    ("dizimista", "Dizimista", "#2E8B57"),
    ("lider", "Líder", "#9370DB"),
    ("obreiro", "Obreiro", "#6B8E23"),
    ("diacono", "Diácono", "#8B4513"),
    ("presbitero", "Presbítero", "#4682B4"),
    ("evangelista", "Evangelista", "#FF6347"),
    ("missionario", "Missionário", "#20B2AA"),
    ("pastor_auxiliar", "Pastor Auxiliar", "#9932CC"),
    ("pastor", "Pastor", "#800080"),
    ("apostolo", "Apóstolo", "#DAA520"),
    ("inativo", "Inativo", "#808080") ]

/-- Position of a status key in the `STATUS_PESSOA` funnel order; the claims
about forward/backward movement compare these positions. -/
def statusIndex (s : String) : Nat :=
  (STATUS_PESSOA.map (fun t => t.1)).indexOf s

/-- One row of the `pessoas` table, restricted to the columns the claims
touch: identity and tenancy, the searchable contact columns, the funnel
`status`, the soft-delete flag `ativo` (a `NULL`-able integer column,
default 1), and `data_atualizacao`.  The `tags` field inlines the person's
`pessoa_tags` rows, which `get_pessoas` reaches through its `LEFT JOIN`. -/
structure Pessoa where
  id : Nat
  igreja_id : Nat
  nome : String
  email : Option String
  celular : Option String
  status : String
  ativo : Option Nat
  tags : List Nat
  data_atualizacao : Option Nat
deriving Repr, DecidableEq

/-- The filter dict accepted by `get_pessoas` (`status`, `busca`, `tag_id`);
`none` embeds an absent (or falsy, hence skipped) entry, for which the
corresponding `AND` clause is not appended to the query. -/
structure FiltrosPessoas where
  status : Option String
  busca : Option String
  tag_id : Option Nat
deriving Repr, DecidableEq

/-- SQL `campo LIKE '%busca%'` on a `NULL`-able text column: `NULL` never
matches; otherwise substring containment. -/
def likeContains (campo : Option String) (busca : String) : Bool :=
  match campo with
  | none => false
  | some s => decide (List.IsInfix busca.toList s.toList)

/-- The optional clauses of `get_pessoas`' `WHERE`: status equality, the
three-column `LIKE` search, and the tag join condition. -/
def matchesFiltros (p : Pessoa) (f : FiltrosPessoas) : Bool :=
  (match f.status with | none => true | some s => p.status == s) &&
  (match f.busca with
    | none => true
    | some b => likeContains (some p.nome) b || likeContains p.email b ||
        likeContains p.celular b) &&
  (match f.tag_id with | none => true | some t => p.tags.contains t)

/-- Embeds `get_pessoas(filtros)` (`modules/pessoas.py` lines 12-45), the active
listing: `WHERE p.igreja_id = ? AND (p.ativo IS NULL OR p.ativo = 1)` plus
the optional filter clauses.  Row order (`ORDER BY p.nome`) is immaterial
to the claims and not modelled. -/
def get_pessoas (db : List Pessoa) (igreja_id : Nat) (f : FiltrosPessoas) : List Pessoa :=
  db.filter (fun p =>
    p.igreja_id == igreja_id && (p.ativo == none || p.ativo == some 1) &&
      matchesFiltros p f)

/-- Embeds `get_pessoa(pessoa_id)` (`modules/pessoas.py` lines 47-60), the by-id
lookup: `WHERE p.id = ? AND p.igreja_id = ?` — note the absence of any
`ativo` condition. -/
def get_pessoa (db : List Pessoa) (igreja_id pessoa_id : Nat) : Option Pessoa :=
  db.find? (fun p => p.id == pessoa_id && p.igreja_id == igreja_id)

/-- The field dict passed to `salvar_pessoa`, restricted to the embedded
columns: an outer `some` marks a key present in the dict, whose value the
generated `SET` clause writes verbatim. -/
structure DadosPessoa where
  nome : Option String
  email : Option (Option String)
  celular : Option (Option String)
  status : Option String
  ativo : Option (Option Nat)
deriving Repr, DecidableEq

/-- The generated `SET` clause of `salvar_pessoa`'s `UPDATE`: every key
present in `dados` (except `id`) overwrites its column, and
`data_atualizacao` is set to the current time; absent columns keep their
values. -/
def aplicarCampos (p : Pessoa) (d : DadosPessoa) (now : Nat) : Pessoa :=
  { p with
    nome := d.nome.getD p.nome
    email := d.email.getD p.email
    celular := d.celular.getD p.celular
    status := d.status.getD p.status
    ativo := d.ativo.getD p.ativo
    data_atualizacao := some now }

/-- The update branch of `salvar_pessoa(dados)` (`modules/pessoas.py` lines
117-129), taken when `dados` carries an `id`: `UPDATE pessoas SET {campos},
data_atualizacao = ? WHERE id = ? AND igreja_id = ?`. -/
def salvar_pessoa_update (db : List Pessoa) (igreja_id : Nat) (dados : DadosPessoa)
    (pessoa_id now : Nat) : List Pessoa :=
  db.map (fun p =>
    if p.id == pessoa_id && p.igreja_id == igreja_id then aplicarCampos p dados now
    else p)

/-- The soft-delete `UPDATE` of `excluir_pessoa`: `SET ativo = 0,
data_atualizacao = ? WHERE id = ? AND igreja_id = ?`. -/
def excluir_pessoa_update (db : List Pessoa) (igreja_id pessoa_id now : Nat) :
    List Pessoa :=
  db.map (fun p =>
    if p.id == pessoa_id && p.igreja_id == igreja_id then
      { p with ativo := some 0, data_atualizacao := some now }
    else p)

/-- Embeds `excluir_pessoa(pessoa_id)` (`modules/pessoas.py` lines 146-171): the
existence check `SELECT id FROM pessoas WHERE id = ? AND igreja_id = ?`,
then the soft delete; returns the Boolean result paired with the resulting
table state. -/
def excluir_pessoa (db : List Pessoa) (igreja_id pessoa_id now : Nat) :
    Bool × List Pessoa :=
  if db.any (fun p => p.id == pessoa_id && p.igreja_id == igreja_id) then
    (true, excluir_pessoa_update db igreja_id pessoa_id now)
  else (false, db)

/-- A concrete `pessoas` row at funnel stage `membro`, for the concrete
instances of the people-registry theorems. -/
def pessoaMembro : Pessoa :=
  { id := 1, igreja_id := 1, nome := "Ana", email := none, celular := none,
    status := "membro", ativo := some 1, tags := [], data_atualizacao := none }

/-- A second concrete row, at funnel stage `visitante`, in the same church. -/
def pessoaVisitante : Pessoa :=
  { id := 2, igreja_id := 1, nome := "Bia", email := none, celular := none,
    status := "visitante", ativo := some 1, tags := [], data_atualizacao := none }

/-- A concrete two-person `pessoas` table. -/
def dbDuasPessoas : List Pessoa := [pessoaMembro, pessoaVisitante]

/-- The empty filter dict (no status, search, or tag clause). -/
def filtrosVazios : FiltrosPessoas := { status := none, busca := none, tag_id := none }

/-- A `salvar_pessoa` field dict that writes only `status := "visitante"`. -/
def dadosRetrocesso : DadosPessoa :=
  { nome := none, email := none, celular := none, status := some "visitante",
    ativo := none }

/-! ## Visitor follow-up workflow: `modules/visitantes.py` -/

/-- One row of the `followup` table (`database/db.py` lines 242-256);
the `status` column has SQL default `'pendente'`. -/
structure Followup where
  id : Nat
  pessoa_id : Nat
  tipo : String
  status : String
  data_prevista : Option Int
  data_realizada : Option Nat
  responsavel_id : Option Nat
  observacoes : Option String
  resultado : Option String
deriving Repr, DecidableEq

/-- One row of the `fluxos_followup` configuration table (`database/db.py`
lines 260-272), restricted to the columns `criar_followups_automaticos`
reads (`descricao` and `tipo_acao` are never consulted). -/
structure Fluxo where
  id : Nat
  igreja_id : Nat
  nome : String
  trigger_evento : Option String
  dias_apos_trigger : Int
  template_mensagem : Option String
  ativo : Nat
deriving Repr, DecidableEq

/-- The `SELECT` of `criar_followups_automaticos`: flows of the caller's
church `WHERE ativo = 1 AND trigger_evento = 'primeira_visita'`. -/
def fluxosAtivos (fluxos : List Fluxo) (igreja_id : Nat) : List Fluxo :=
  fluxos.filter (fun fl =>
    fl.igreja_id == igreja_id && fl.ativo == 1 &&
      fl.trigger_evento == some "primeira_visita")

/-- The row `criar_followups_automaticos` inserts for one flow: the type is
the flow's name, the due date is today plus the flow's `dias_apos_trigger`,
`observacoes` is the flow's message template, and every column absent from
the `INSERT` takes its schema default — in particular `status = 'pendente'`. -/
def followupDoFluxo (pessoa_id : Nat) (today : Int) (rowid : Nat) (fl : Fluxo) :
    Followup :=
  { id := rowid, pessoa_id := pessoa_id, tipo := fl.nome, status := "pendente",
    data_prevista := some (today + fl.dias_apos_trigger), data_realizada := none,
    responsavel_id := none, observacoes := fl.template_mensagem, resultado := none }

/-- The insert loop of `criar_followups_automaticos`, with the autoincrement
row id threaded through. -/
def criarFollowupsLoop (pessoa_id : Nat) (today : Int) :
    Nat → List Fluxo → List Followup
  | _, [] => []
  | nextId, fl :: rest =>
      followupDoFluxo pessoa_id today nextId fl ::
        criarFollowupsLoop pessoa_id today (nextId + 1) rest

/-- Embeds `criar_followups_automaticos(pessoa_id)` (`modules/visitantes.py` lines
127-146): one `INSERT INTO followup` per selected flow. -/
def criar_followups_automaticos (fluxos : List Fluxo) (igreja_id pessoa_id : Nat)
    (today : Int) (nextId : Nat) : List Followup :=
  criarFollowupsLoop pessoa_id today nextId (fluxosAtivos fluxos igreja_id)

/-- Embeds `atualizar_followup(followup_id, status, resultado)` (`modules/visitantes.py`
lines 185-198): `UPDATE followup SET status = ?, resultado = ?,
data_realizada = ?, responsavel_id = ? WHERE id = ?`. -/
def atualizar_followup (db : List Followup) (followup_id : Nat) (status : String)
    (resultado : Option String) (now : Nat) (responsavel : Option Nat) :
    List Followup :=
  db.map (fun f =>
    if f.id == followup_id then
      { f with
          status := status
          resultado := resultado
          data_realizada := some now
          responsavel_id := responsavel }
    else f)

/-- Embeds `get_followups_pendentes()` (`modules/visitantes.py` lines 168-183):
follow-ups of people of the caller's church `WHERE f.status = 'pendente'`
(row order is immaterial to the claims). -/
def get_followups_pendentes (pessoas : List Pessoa) (igreja_id : Nat)
    (db : List Followup) : List Followup :=
  db.filter (fun f =>
    f.status == "pendente" &&
      pessoas.any (fun p => p.id == f.pessoa_id && p.igreja_id == igreja_id))

/-- The writes the visitor follow-up workflow performs on the `followup`
table, as the program exposes them:
* `criar`: registering a visit appends the automatically created rows
  (`registrar_visita` → `criar_followups_automaticos`);
* `realizado` / `cancelado`: the two buttons of `render_followup_card`
  (`modules/visitantes.py` lines 894-933) — rendered exactly for the rows
  listed by `get_followups_pendentes` — call
  `atualizar_followup(id, 'realizado')` or `atualizar_followup(id, 'cancelado')`,
  and the `Remarcar` button is a no-op. -/
inductive FollowupStep (pessoas : List Pessoa) (igreja_id : Nat) :
    List Followup → List Followup → Prop
  | criar (db : List Followup) (fluxos : List Fluxo) (pessoa_id : Nat)
      (today : Int) (nextId : Nat) :
      FollowupStep pessoas igreja_id db
        (db ++ criar_followups_automaticos fluxos igreja_id pessoa_id today nextId)
  | realizado (db : List Followup) (f : Followup) (now : Nat) (resp : Option Nat)
      (hf : f ∈ get_followups_pendentes pessoas igreja_id db) :
      FollowupStep pessoas igreja_id db
        (atualizar_followup db f.id "realizado" none now resp)
  | cancelado (db : List Followup) (f : Followup) (now : Nat) (resp : Option Nat)
      (hf : f ∈ get_followups_pendentes pessoas igreja_id db) :
      FollowupStep pessoas igreja_id db
        (atualizar_followup db f.id "cancelado" none now resp)

/-- One row of the `visitas` table (`database/db.py` lines 223-238). -/
structure Visita where
  pessoa_id : Nat
  evento_id : Option Nat
  data_visita : Int
  tipo_culto : Option String
  como_conheceu : Option String
  responsavel_recepcao_id : Option Nat
deriving Repr, DecidableEq

/-- The slice of database state `registrar_visita` writes. -/
structure VisitState where
  visitas : List Visita
  followups : List Followup
deriving Repr, DecidableEq

/-- The run of `criar_followups_automaticos` under `registrar_visita`, with
an explicit failure oracle: the Python call can raise (its own database
connection and inserts can fail); `fails = true` embeds such a run. -/
def criarFollowupsResult (fluxos : List Fluxo) (igreja_id pessoa_id : Nat)
    (today : Int) (nextId : Nat) (fails : Bool) : Except String (List Followup) :=
  if fails then .error "db error"
  else .ok (criar_followups_automaticos fluxos igreja_id pessoa_id today nextId)

/-- Embeds `registrar_visita(...)` (`modules/visitantes.py` lines 110-125).  The
`INSERT INTO visitas` and the call to `criar_followups_automaticos` run
inside one `with get_connection()` block with no `try/except` anywhere in
the module; on an exception the context manager (`database/db.py` lines
37-52) rolls the uncommitted insert back and re-raises.  A failing run
therefore yields the propagated error and commits nothing. -/
def registrar_visita (st : VisitState) (fluxos : List Fluxo)
    (igreja_id pessoa_id : Nat) (evento_id : Option Nat)
    (tipo_culto como_conheceu : Option String) (responsavel : Option Nat)
    (today : Int) (nextId : Nat) (fails : Bool) : Except String VisitState :=
  let visita : Visita :=
    { pessoa_id := pessoa_id, evento_id := evento_id, data_visita := today,
      tipo_culto := tipo_culto, como_conheceu := como_conheceu,
      responsavel_recepcao_id := responsavel }
  match criarFollowupsResult fluxos igreja_id pessoa_id today nextId fails with
  | .error e => .error e
  | .ok fus =>
      .ok { visitas := st.visitas ++ [visita], followups := st.followups ++ fus }

/-- A concrete pending follow-up for person 2 of church 1. -/
def followupPendente : Followup :=
  { id := 1, pessoa_id := 2, tipo := "ligacao", status := "pendente",
    data_prevista := some 3, data_realizada := none, responsavel_id := none,
    observacoes := none, resultado := none }

/-- The row `followupPendente` after the `Realizado` button at time 9. -/
def followupRealizado : Followup :=
  { followupPendente with
      status := "realizado"
      resultado := none
      data_realizada := some 9
      responsavel_id := none }

/-- A concrete active `primeira_visita` flow of church 1. -/
def fluxoBoasVindas : Fluxo :=
  { id := 1, igreja_id := 1, nome := "boas_vindas",
    trigger_evento := some "primeira_visita", dias_apos_trigger := 2,
    template_mensagem := some "Seja bem-vindo!", ativo := 1 }

/-! ## Financial summary: `modules/financeiro.py` `get_resumo_financeiro` -/

/-- One row of the `doacoes` table, restricted to the columns the summary
queries read.  `valor` (SQL `REAL`) is embedded as a rational so that SQL
`SUM` is exact summation. -/
structure Doacao where
  id : Nat
  igreja_id : Nat
  pessoa_id : Option Nat
  tipo : String
  valor : ℚ
  data : Int
deriving Repr, DecidableEq

/-- The rows both aggregation queries of `get_resumo_financeiro` range
over: `WHERE igreja_id = ? AND data >= ?`, where `data_inicio` is the
period start date the function derives from `periodo` (first of the month,
first of the year, start of the week, or 30 days back). -/
def doacoesPeriodo (db : List Doacao) (igreja_id : Nat) (data_inicio : Int) :
    List Doacao :=
  db.filter (fun d => d.igreja_id == igreja_id && decide (data_inicio ≤ d.data))

/-- One entry of the `por_tipo` dict (`GROUP BY tipo` with `SUM(valor)` and
`COUNT(*)` over the period rows of that type). -/
def porTipo (db : List Doacao) (igreja_id : Nat) (data_inicio : Int)
    (tipo : String) : ℚ × Nat :=
  ((((doacoesPeriodo db igreja_id data_inicio).filter
      (fun d => d.tipo == tipo)).map (fun d => d.valor)).sum,
    ((doacoesPeriodo db igreja_id data_inicio).filter
      (fun d => d.tipo == tipo)).length)

/-- The `total_geral` aggregate: `SUM(valor)` over all period rows. -/
def total_geral (db : List Doacao) (igreja_id : Nat) (data_inicio : Int) : ℚ :=
  ((doacoesPeriodo db igreja_id data_inicio).map (fun d => d.valor)).sum

/-! ## Encrypted counseling notes: `database/db.py` lines 15-35 and
`modules/aconselhamento.py` -/

/-- The Fernet cipher `FERNET` built in `database/db.py` (lines 15-20) over
the key derived from `SECRET_KEY` by SHA-256, embedded abstractly through
its interface: `enc` is `FERNET.encrypt`, and `dec` is `FERNET.decrypt`
with `none` embedding a raised exception.  The library contract — under one
key, decryption inverts encryption and tokens are nonempty — appears as
hypotheses of the theorem using this structure. -/
structure FernetCipher where
  enc : String → String
  dec : String → Option String

/-- Embeds `encrypt_data(data)` (`database/db.py` lines 22-26): falsy (empty) data
is returned unchanged, otherwise Fernet-encrypted. -/
def encrypt_data (F : FernetCipher) (data : String) : String :=
  if data = "" then data else F.enc data

/-- Embeds `decrypt_data(data)` (`database/db.py` lines 28-35): falsy data is
returned unchanged; otherwise Fernet decryption, returning the input
unchanged when decryption raises (the bare `try/except`). -/
def decrypt_data (F : FernetCipher) (data : String) : String :=
  if data = "" then data
  else
    match F.dec data with
    | some s => s
    | none => data

/-- The counseling-text columns of an `aconselhamentos` row: the schema has
only the encrypted columns, no plaintext column. -/
structure Aconselhamento where
  resumo_criptografado : Option String
  notas_criptografadas : Option String
deriving Repr, DecidableEq

/-- The storage of one text field by `registrar_aconselhamento`:
`encrypt_data(dados.get(campo, '')) if dados.get(campo) else None` — a
falsy (absent or empty) field stores `NULL`, anything else stores only the
encrypted form. -/
def encryptField (F : FernetCipher) (campo : Option String) : Option String :=
  match campo with
  | some s => if s = "" then none else some (encrypt_data F s)
  | none => none

/-- Embeds `registrar_aconselhamento(dados)` (`modules/aconselhamento.py` lines
88-111), restricted to the counseling-text columns. -/
def registrar_aconselhamento (F : FernetCipher) (resumo notas : Option String) :
    Aconselhamento :=
  { resumo_criptografado := encryptField F resumo,
    notas_criptografadas := encryptField F notas }

/-- The decryption step of `get_aconselhamento` (`modules/aconselhamento.py`
lines 76-80): a stored encrypted summary is read back through
`decrypt_data`. -/
def lerResumo (F : FernetCipher) (a : Aconselhamento) : Option String :=
  match a.resumo_criptografado with
  | some c => some (decrypt_data F c)
  | none => none

/-- A concrete cipher satisfying the Fernet interface contract, for the
concrete instance of the encryption theorem: it prepends a marker character
and its decryption drops it. -/
def cifraTeste : FernetCipher :=
  { enc := fun s => String.mk ('g' :: s.toList),
    dec := fun t => some (String.mk (t.toList.drop 1)) }

end CRMIgreja

namespace CRMIgreja

/-- C1: for a user whose profile is defined, `tem_permissao` grants access
iff the profile's list has the wildcard, the exact string, or an entry of the
same dot-prefix family (an entry beginning with the request's first
dot-segment); otherwise it returns `False`. -/
theorem C1_tem_permissao_iff (u : Usuario) (perms : List String) (permissao : String)
    (h : lookupPermissoes u.perfil = some perms) :
    tem_permissao (some u) permissao = true ↔
      ("*" ∈ perms ∨ permissao ∈ perms ∨
        ∃ p ∈ perms, pyStartsWith p (firstSegment permissao) = true) := by
  have hb : tem_permissao (some u) permissao
      = (perms.contains "*" || perms.contains permissao
          || perms.any fun p => pyStartsWith p (firstSegment permissao)) := by
    simp only [tem_permissao, h]
    by_cases h1 : perms.contains "*" <;> by_cases h2 : perms.contains permissao <;>
      simp [h1, h2, Bool.or_assoc]
  rw [hb]
  simp [List.any_eq_true, or_assoc]

/-- Witness for C1 at the PASTOR profile and the request `pessoas.ver`. -/
theorem C1_tem_permissao_iff_witness :
    tem_permissao (some ⟨"PASTOR"⟩) "pessoas.ver" = true ↔
      ("*" ∈ (PERFIS.get! 1).2.2 ∨ "pessoas.ver" ∈ (PERFIS.get! 1).2.2 ∨
        ∃ p ∈ (PERFIS.get! 1).2.2, pyStartsWith p (firstSegment "pessoas.ver") = true) :=
  C1_tem_permissao_iff ⟨"PASTOR"⟩ (PERFIS.get! 1).2.2 "pessoas.ver" rfl

/-- C2: an entry of the profile's list beginning with the request's first
dot-segment makes `tem_permissao` return `True`; consequently the FINANCEIRO
profile, holding only `doacoes.ver` and `doacoes.editar` in the `doacoes`
module, is granted every request whose first dot-segment is `doacoes`. -/
theorem C2_family_entry_grants_module (u : Usuario) (perms : List String)
    (permissao : String) (h : lookupPermissoes u.perfil = some perms)
    (hp : ∃ p ∈ perms, pyStartsWith p (firstSegment permissao) = true) :
    tem_permissao (some u) permissao = true ∧
      (∀ q : String, firstSegment q = "doacoes" →
        tem_permissao (some ⟨"FINANCEIRO"⟩) q = true) := by
  constructor
  · simp only [tem_permissao, h]
    simp [List.any_eq_true]
    exact Or.inr (Or.inr hp)
  · intro q hq
    have hlk : lookupPermissoes "FINANCEIRO" = some permissoesFINANCEIRO := rfl
    simp only [tem_permissao, hlk]
    simp [List.any_eq_true]
    refine Or.inr (Or.inr ⟨"doacoes.ver", by decide, ?_⟩)
    rw [hq]
    decide

/-- Witness for C2: the FINANCEIRO profile is granted `doacoes.excluir`,
a permission string its list does not contain. -/
theorem C2_family_entry_grants_module_witness :
    tem_permissao (some ⟨"FINANCEIRO"⟩) "doacoes.excluir" = true :=
  (C2_family_entry_grants_module ⟨"FINANCEIRO"⟩ permissoesFINANCEIRO "doacoes.excluir"
      rfl ⟨"doacoes.ver", by decide, by decide⟩).2 "doacoes.excluir" (by decide)

/-- Counterexample to C3: `salvar_pessoa` moves a `membro` back to
`visitante` — a strictly backward move in the `STATUS_PESSOA` order — so
funnel status does not move only monotonically forward. -/
theorem C3_counterexample_backward_move :
    ((salvar_pessoa_update [pessoaMembro] 1 dadosRetrocesso 1 7).headD
        pessoaMembro).status = "visitante" ∧
      pessoaMembro.status = "membro" ∧
      statusIndex "visitante" < statusIndex "membro" := by
  decide

/-- C3 (amended): a person's funnel status changes only through explicit
`salvar_pessoa` row updates, and `salvar_pessoa` writes whatever status the
caller supplies — there is no forward-only enforcement, so backward moves in
the `STATUS_PESSOA` order are possible. -/
theorem C3_amended_status_written_verbatim (db : List Pessoa)
    (igreja_id pessoa_id now : Nat) (d : DadosPessoa) (s : String)
    (hs : d.status = some s) (p : Pessoa) (hp : p ∈ db)
    (hid : p.id = pessoa_id) (hig : p.igreja_id = igreja_id) :
    (aplicarCampos p d now).status = s ∧
      aplicarCampos p d now ∈ salvar_pessoa_update db igreja_id d pessoa_id now := by
  refine ⟨by simp [aplicarCampos, hs], ?_⟩
  have hm := List.mem_map_of_mem
    (f := fun q : Pessoa =>
      if q.id == pessoa_id && q.igreja_id == igreja_id then aplicarCampos q d now
      else q) hp
  simpa [salvar_pessoa_update, hid, hig] using hm

/-- Witness for the amended C3 at a concrete backward update. -/
theorem C3_amended_status_written_verbatim_witness :
    (aplicarCampos pessoaMembro dadosRetrocesso 7).status = "visitante" ∧
      aplicarCampos pessoaMembro dadosRetrocesso 7 ∈
        salvar_pessoa_update [pessoaMembro] 1 dadosRetrocesso 1 7 :=
  C3_amended_status_written_verbatim [pessoaMembro] 1 1 7 dadosRetrocesso
    "visitante" rfl pessoaMembro (List.mem_singleton.mpr rfl) rfl rfl

/-- C8: after the soft delete `excluir_pessoa`, the active listing
`get_pessoas` never returns the deleted person, for every combination of
status, search, and tag filters. -/
theorem C8_soft_deleted_excluded_from_listing (db : List Pessoa)
    (igreja_id pessoa_id now : Nat) (f : FiltrosPessoas) (r : Pessoa)
    (hr : r ∈ get_pessoas (excluir_pessoa db igreja_id pessoa_id now).2 igreja_id f) :
    r.id ≠ pessoa_id := by
  intro hid
  rw [get_pessoas] at hr
  have hmem := (List.mem_filter.mp hr).1
  have hpred := (List.mem_filter.mp hr).2
  have hsplit : r.igreja_id = igreja_id ∧ (r.ativo = none ∨ r.ativo = some 1) := by
    have hb := hpred
    simp only [Bool.and_eq_true, Bool.or_eq_true, beq_iff_eq] at hb
    exact ⟨hb.1.1, hb.1.2⟩
  obtain ⟨hig, hao⟩ := hsplit
  by_cases hex : db.any (fun p => p.id == pessoa_id && p.igreja_id == igreja_id)
  · have hmem2 : r ∈ excluir_pessoa_update db igreja_id pessoa_id now := by
      simpa [excluir_pessoa, hex] using hmem
    simp only [excluir_pessoa_update, List.mem_map] at hmem2
    obtain ⟨p, hpdb, hpr⟩ := hmem2
    by_cases hmatch : (p.id == pessoa_id && p.igreja_id == igreja_id) = true
    · rw [if_pos hmatch] at hpr
      rw [← hpr] at hao
      simp at hao
    · rw [if_neg hmatch] at hpr
      subst hpr
      exact hmatch (by simp [hid, hig])
  · have hmem2 : r ∈ db := by simpa [excluir_pessoa, hex] using hmem
    exact hex (List.any_eq_true.mpr ⟨r, hmem2, by simp [hid, hig]⟩)

/-- Witness for C8: after soft-deleting person 1, person 2 is still listed
and is provably not the deleted person. -/
theorem C8_soft_deleted_excluded_from_listing_witness :
    pessoaVisitante ∈
        get_pessoas (excluir_pessoa dbDuasPessoas 1 1 7).2 1 filtrosVazios ∧
      pessoaVisitante.id ≠ 1 :=
  ⟨by decide,
    C8_soft_deleted_excluded_from_listing dbDuasPessoas 1 1 7 filtrosVazios
      pessoaVisitante (by decide)⟩

/-- C10: when the person exists in the caller's church, `excluir_pessoa`
returns `True`, leaves non-matching rows unchanged, rewrites the matching
row changing only `ativo` (to 0) and `data_atualizacao`, and the person is
still found by the by-id lookup `get_pessoa`; when no such person exists it
returns `False` and leaves the table unchanged. -/
theorem C10_excluir_pessoa_frame (db : List Pessoa) (igreja_id pessoa_id now : Nat) :
    ((∃ p ∈ db, p.id = pessoa_id ∧ p.igreja_id = igreja_id) →
      (excluir_pessoa db igreja_id pessoa_id now).1 = true ∧
      (∀ p ∈ db,
        (¬(p.id = pessoa_id ∧ p.igreja_id = igreja_id) →
          p ∈ (excluir_pessoa db igreja_id pessoa_id now).2) ∧
        (p.id = pessoa_id → p.igreja_id = igreja_id →
          { p with ativo := some 0, data_atualizacao := some now } ∈
            (excluir_pessoa db igreja_id pessoa_id now).2)) ∧
      (get_pessoa (excluir_pessoa db igreja_id pessoa_id now).2 igreja_id
          pessoa_id).isSome = true) ∧
    ((¬∃ p ∈ db, p.id = pessoa_id ∧ p.igreja_id = igreja_id) →
      excluir_pessoa db igreja_id pessoa_id now = (false, db)) := by
  constructor
  · rintro ⟨p0, hp0, hid0, hig0⟩
    have hex : db.any (fun p => p.id == pessoa_id && p.igreja_id == igreja_id) = true :=
      List.any_eq_true.mpr ⟨p0, hp0, by simp [hid0, hig0]⟩
    have hstate : (excluir_pessoa db igreja_id pessoa_id now).2 =
        excluir_pessoa_update db igreja_id pessoa_id now := by
      simp [excluir_pessoa, hex]
    refine ⟨by simp [excluir_pessoa, hex], ?_, ?_⟩
    · intro p hp
      constructor
      · intro hnm
        rw [hstate]
        simp only [excluir_pessoa_update]
        refine List.mem_map.mpr ⟨p, hp, ?_⟩
        have hcond : ¬(p.id == pessoa_id && p.igreja_id == igreja_id) = true := by
          simp only [Bool.and_eq_true, beq_iff_eq]
          exact hnm
        simp [hcond]
      · intro hid hig
        rw [hstate]
        simp only [excluir_pessoa_update]
        refine List.mem_map.mpr ⟨p, hp, ?_⟩
        simp [hid, hig]
    · rw [hstate]
      apply List.find?_isSome.mpr
      refine ⟨{ p0 with ativo := some 0, data_atualizacao := some now }, ?_, ?_⟩
      · simp only [excluir_pessoa_update]
        refine List.mem_map.mpr ⟨p0, hp0, ?_⟩
        simp [hid0, hig0]
      · simp [hid0, hig0]
  · intro hnex
    have hex : db.any (fun p => p.id == pessoa_id && p.igreja_id == igreja_id) = false := by
      rw [List.any_eq_false]
      intro p hp
      simp only [Bool.and_eq_true, beq_iff_eq, not_and]
      intro hid hig
      exact hnex ⟨p, hp, hid, hig⟩
    simp [excluir_pessoa, hex]

theorem criarFollowupsLoop_length (pessoa_id : Nat) (today : Int) (l : List Fluxo) :
    ∀ nextId, (criarFollowupsLoop pessoa_id today nextId l).length = l.length := by
  induction l with
  | nil => intro n; rfl
  | cons fl rest ih => intro n; simp [criarFollowupsLoop, ih]

theorem mem_criarFollowupsLoop (pessoa_id : Nat) (today : Int) (l : List Fluxo) :
    ∀ nextId fu, fu ∈ criarFollowupsLoop pessoa_id today nextId l →
      ∃ fl ∈ l, ∃ k, fu = followupDoFluxo pessoa_id today k fl := by
  induction l with
  | nil => intro n fu h; simp [criarFollowupsLoop] at h
  | cons fl rest ih =>
    intro n fu h
    simp only [criarFollowupsLoop, List.mem_cons] at h
    rcases h with h | h
    · exact ⟨fl, List.mem_cons_self fl rest, n, h⟩
    · obtain ⟨fl', hfl', k, hk⟩ := ih (n + 1) fu h
      exact ⟨fl', List.mem_cons_of_mem _ hfl', k, hk⟩

theorem criarFollowupsLoop_mem_of_mem (pessoa_id : Nat) (today : Int) (l : List Fluxo) :
    ∀ nextId fl, fl ∈ l →
      ∃ fu ∈ criarFollowupsLoop pessoa_id today nextId l, ∃ k,
        fu = followupDoFluxo pessoa_id today k fl := by
  induction l with
  | nil => intro n fl h; simp at h
  | cons fl0 rest ih =>
    intro n fl h
    rcases List.mem_cons.mp h with rfl | h
    · exact ⟨followupDoFluxo pessoa_id today n fl,
        List.mem_cons_self _ _, n, rfl⟩
    · obtain ⟨fu, hfu, k, hk⟩ := ih (n + 1) fl h
      exact ⟨fu, List.mem_cons_of_mem _ hfu, k, hk⟩

theorem atualizar_pendente_frame (pessoas : List Pessoa) (igreja_id : Nat)
    (db : List Followup) (f : Followup) (s : String) (res : Option String)
    (now : Nat) (resp : Option Nat)
    (hn : (db.map (fun g => g.id)).Nodup)
    (hf : f ∈ get_followups_pendentes pessoas igreja_id db) :
    (∀ g ∈ db, g.status ≠ "pendente" →
      g ∈ atualizar_followup db f.id s res now resp) ∧
    (∀ g' ∈ atualizar_followup db f.id s res now resp, g' ∉ db →
      g'.status = s ∧ ∃ g ∈ db, g.id = g'.id ∧ g.status = "pendente") := by
  have hfmem : f ∈ db := (List.mem_filter.mp hf).1
  have hfpend : f.status = "pendente" := by
    have hb := (List.mem_filter.mp hf).2
    simp only [Bool.and_eq_true, beq_iff_eq] at hb
    exact hb.1
  constructor
  · intro g hg hgs
    have hgid : ¬(g.id == f.id) = true := by
      simp only [beq_iff_eq]
      intro he
      exact hgs (by rw [List.inj_on_of_nodup_map hn hg hfmem he]; exact hfpend)
    simp only [atualizar_followup]
    refine List.mem_map.mpr ⟨g, hg, ?_⟩
    exact if_neg hgid
  · intro g' hg' hnot
    simp only [atualizar_followup, List.mem_map] at hg'
    obtain ⟨x, hx, hxg'⟩ := hg'
    by_cases hcond : (x.id == f.id) = true
    · rw [if_pos hcond] at hxg'
      have hxf : x = f := List.inj_on_of_nodup_map hn hx hfmem (by simpa using hcond)
      subst hxf
      refine ⟨by rw [← hxg'], x, hx, ?_, hfpend⟩
      rw [← hxg']
    · rw [if_neg hcond] at hxg'
      subst hxg'
      exact absurd hx hnot

/-- C4: in the visitor follow-up workflow, every inserted follow-up starts
with status `pendente`, the only transitions are `pendente → realizado` and
`pendente → cancelado` via the explicit `atualizar_followup` calls of the
follow-up cards, and a `realizado` or `cancelado` follow-up is never
modified again (row ids are the `followup` primary key, hence distinct). -/
theorem C4_followup_lifecycle (pessoas : List Pessoa) (igreja_id : Nat)
    (db db' : List Followup) (hstep : FollowupStep pessoas igreja_id db db')
    (hn : (db.map (fun f => f.id)).Nodup) :
    (∀ g ∈ db, (g.status = "realizado" ∨ g.status = "cancelado") → g ∈ db') ∧
    (∀ g' ∈ db', g' ∉ db →
      g'.status = "pendente" ∨
        ((g'.status = "realizado" ∨ g'.status = "cancelado") ∧
          ∃ g ∈ db, g.id = g'.id ∧ g.status = "pendente")) := by
  cases hstep with
  | criar fluxos pessoa_id today nextId =>
    constructor
    · intro g hg _
      exact List.mem_append_left _ hg
    · intro g' hg' hnot
      left
      rcases List.mem_append.mp hg' with h | h
      · exact absurd h hnot
      · obtain ⟨fl, hfl, k, rfl⟩ :=
          mem_criarFollowupsLoop pessoa_id today (fluxosAtivos fluxos igreja_id)
            nextId g' h
        rfl
  | realizado f now resp hf =>
    have hframe := atualizar_pendente_frame pessoas igreja_id db f "realizado"
      none now resp hn hf
    refine ⟨fun g hg hgs => hframe.1 g hg ?_, fun g' hg' hnot => ?_⟩
    · rcases hgs with h | h <;> simp [h]
    · obtain ⟨hs, hex⟩ := hframe.2 g' hg' hnot
      exact Or.inr ⟨Or.inl hs, hex⟩
  | cancelado f now resp hf =>
    have hframe := atualizar_pendente_frame pessoas igreja_id db f "cancelado"
      none now resp hn hf
    refine ⟨fun g hg hgs => hframe.1 g hg ?_, fun g' hg' hnot => ?_⟩
    · rcases hgs with h | h <;> simp [h]
    · obtain ⟨hs, hex⟩ := hframe.2 g' hg' hnot
      exact Or.inr ⟨Or.inr hs, hex⟩

/-- Witness for C4 at a concrete step: the `Realizado` button on the one
pending follow-up produces a row that was not in the table before, and the
theorem attributes it to a `pendente → realizado` transition. -/
theorem C4_followup_lifecycle_witness :
    followupRealizado.status = "pendente" ∨
      ((followupRealizado.status = "realizado" ∨
          followupRealizado.status = "cancelado") ∧
        ∃ g ∈ ([followupPendente] : List Followup),
          g.id = followupRealizado.id ∧ g.status = "pendente") :=
  (C4_followup_lifecycle [pessoaVisitante] 1 [followupPendente]
      (atualizar_followup [followupPendente] 1 "realizado" none 9 none)
      (FollowupStep.realizado _ followupPendente 9 none (by decide))
      (by decide)).2
    followupRealizado (by decide) (by decide)

/-- C5: registering a visit creates, per active `primeira_visita` flow of
the church, exactly one follow-up row whose type is the flow's name, whose
`observacoes` is the flow's message template, whose due date is the visit
date (today) plus the flow's `dias_apos_trigger`, and whose status is the
schema default `pendente`. -/
theorem C5_followups_automaticos_por_fluxo (fluxos : List Fluxo)
    (igreja_id pessoa_id : Nat) (today : Int) (nextId : Nat) :
    (criar_followups_automaticos fluxos igreja_id pessoa_id today nextId).length =
        (fluxosAtivos fluxos igreja_id).length ∧
    (∀ fu ∈ criar_followups_automaticos fluxos igreja_id pessoa_id today nextId,
      ∃ fl ∈ fluxosAtivos fluxos igreja_id,
        fu.pessoa_id = pessoa_id ∧ fu.tipo = fl.nome ∧
        fu.observacoes = fl.template_mensagem ∧
        fu.data_prevista = some (today + fl.dias_apos_trigger) ∧
        fu.status = "pendente") ∧
    (∀ fl ∈ fluxos, fl.igreja_id = igreja_id → fl.ativo = 1 →
      fl.trigger_evento = some "primeira_visita" →
      ∃ fu ∈ criar_followups_automaticos fluxos igreja_id pessoa_id today nextId,
        fu.pessoa_id = pessoa_id ∧ fu.tipo = fl.nome ∧
        fu.observacoes = fl.template_mensagem ∧
        fu.data_prevista = some (today + fl.dias_apos_trigger) ∧
        fu.status = "pendente") := by
  refine ⟨criarFollowupsLoop_length pessoa_id today _ nextId, ?_, ?_⟩
  · intro fu hfu
    obtain ⟨fl, hfl, k, rfl⟩ :=
      mem_criarFollowupsLoop pessoa_id today (fluxosAtivos fluxos igreja_id)
        nextId fu hfu
    exact ⟨fl, hfl, rfl, rfl, rfl, rfl, rfl⟩
  · intro fl hfl hig hativo htrig
    have hsel : fl ∈ fluxosAtivos fluxos igreja_id := by
      simp only [fluxosAtivos, List.mem_filter]
      exact ⟨hfl, by simp [hig, hativo, htrig]⟩
    obtain ⟨fu, hfu, k, rfl⟩ :=
      criarFollowupsLoop_mem_of_mem pessoa_id today (fluxosAtivos fluxos igreja_id)
        nextId fl hsel
    exact ⟨followupDoFluxo pessoa_id today k fl, hfu, rfl, rfl, rfl, rfl, rfl⟩

/-- Witness for C5 at one concrete active flow with a 2-day offset and a
visit on day 10. -/
theorem C5_followups_automaticos_por_fluxo_witness :
    ∃ fu ∈ criar_followups_automaticos [fluxoBoasVindas] 1 2 10 1,
      fu.pessoa_id = 2 ∧ fu.tipo = fluxoBoasVindas.nome ∧
      fu.observacoes = fluxoBoasVindas.template_mensagem ∧
      fu.data_prevista = some (10 + fluxoBoasVindas.dias_apos_trigger) ∧
      fu.status = "pendente" :=
  (C5_followups_automaticos_por_fluxo [fluxoBoasVindas] 1 2 10 1).2.2
    fluxoBoasVindas (by decide) rfl rfl rfl

/-- Counterexample to C6: a failing `criar_followups_automaticos` makes
`registrar_visita` end in the propagated error — there is no `try/except`
in `modules/visitantes.py`, and the connection context manager rolls back
the uncommitted visit insert — so the run produces no state at all in which
the visit row is recorded, refuting "the enclosing visit registration still
completes and the visit row is still recorded". -/
theorem C6_counterexample_failure_not_swallowed :
    registrar_visita ⟨[], []⟩ [fluxoBoasVindas] 1 2 none none none none 10 1 true =
      .error "db error" := rfl

/-- C6 (amended): if automatic follow-up creation fails during visit
registration, the exception propagates out of `registrar_visita` unhandled
and the transaction rolls back, so the visit registration does not complete
and the visit row is not recorded; on success the visit row and the created
follow-ups are appended. -/
theorem C6_amended_failure_propagates (st : VisitState) (fluxos : List Fluxo)
    (igreja_id pessoa_id : Nat) (evento_id : Option Nat)
    (tipo_culto como_conheceu : Option String) (responsavel : Option Nat)
    (today : Int) (nextId : Nat) :
    registrar_visita st fluxos igreja_id pessoa_id evento_id tipo_culto
        como_conheceu responsavel today nextId true = .error "db error" ∧
    registrar_visita st fluxos igreja_id pessoa_id evento_id tipo_culto
        como_conheceu responsavel today nextId false =
      .ok { visitas := st.visitas ++
              [{ pessoa_id := pessoa_id, evento_id := evento_id,
                 data_visita := today, tipo_culto := tipo_culto,
                 como_conheceu := como_conheceu,
                 responsavel_recepcao_id := responsavel }],
            followups := st.followups ++
              criar_followups_automaticos fluxos igreja_id pessoa_id today nextId } :=
  ⟨rfl, rfl⟩

/-- Witness for C10 at the concrete two-person table: deleting person 1
reports success and person 1 is still found by the by-id lookup; deleting
the absent person 9 changes nothing. -/
theorem C10_excluir_pessoa_frame_witness :
    ((excluir_pessoa dbDuasPessoas 1 1 7).1 = true ∧
      (get_pessoa (excluir_pessoa dbDuasPessoas 1 1 7).2 1 1).isSome = true) ∧
      excluir_pessoa dbDuasPessoas 1 9 7 = (false, dbDuasPessoas) :=
  ⟨⟨((C10_excluir_pessoa_frame dbDuasPessoas 1 1 7).1
        ⟨pessoaMembro, by decide, rfl, rfl⟩).1,
    ((C10_excluir_pessoa_frame dbDuasPessoas 1 1 7).1
        ⟨pessoaMembro, by decide, rfl, rfl⟩).2.2⟩,
    (C10_excluir_pessoa_frame dbDuasPessoas 1 9 7).2 (by decide)⟩

theorem list_sum_map_add {κ : Type} (ts : List κ) (u w : κ → ℚ) :
    (ts.map (fun t => u t + w t)).sum = (ts.map u).sum + (ts.map w).sum := by
  induction ts with
  | nil => simp
  | cons t rest ih => simp [ih]; ring

theorem sum_map_ite_single {κ : Type} [DecidableEq κ] (ts : List κ) (a : κ)
    (v : ℚ) (hnd : ts.Nodup) (ha : a ∈ ts) :
    (ts.map (fun t => if a = t then v else 0)).sum = v := by
  induction ts with
  | nil => simp at ha
  | cons t0 rest ih =>
    obtain ⟨hnotmem, hnd'⟩ := List.nodup_cons.mp hnd
    rcases List.mem_cons.mp ha with rfl | ha'
    · have hzero : (rest.map (fun t => if a = t then v else 0)).sum = 0 := by
        apply List.sum_eq_zero
        intro x hx
        obtain ⟨t, ht, rfl⟩ := List.mem_map.mp hx
        exact if_neg (fun he => by subst he; exact hnotmem ht)
      simp [hzero]
    · have hne : a ≠ t0 := fun he => hnotmem (he ▸ ha')
      simp only [List.map_cons, List.sum_cons, if_neg hne]
      rw [ih hnd' ha', zero_add]

theorem sum_fibers_eq {α κ : Type} [DecidableEq κ] (key : α → κ) (val : α → ℚ)
    (ts : List κ) (hnd : ts.Nodup) (l : List α) (hcov : ∀ a ∈ l, key a ∈ ts) :
    (ts.map (fun t => ((l.filter (fun a => key a == t)).map val).sum)).sum
      = (l.map val).sum := by
  induction l with
  | nil => simp
  | cons a l' ih =>
    have hcov' : ∀ x ∈ l', key x ∈ ts :=
      fun x hx => hcov x (List.mem_cons_of_mem _ hx)
    have hstep : (fun t => (((a :: l').filter (fun x => key x == t)).map val).sum)
        = fun t => (if key a = t then val a else 0) +
            ((l'.filter (fun x => key x == t)).map val).sum := by
      funext t
      by_cases h : key a = t
      · simp [List.filter_cons, h]
      · simp [List.filter_cons, h]
    rw [hstep, list_sum_map_add,
      sum_map_ite_single ts (key a) (val a) hnd (hcov a (List.mem_cons_self a l')),
      ih hcov']
    simp

/-- C7: each `por_tipo` entry of `get_resumo_financeiro` is the sum of
`valor` and the count of exactly the period donations of that type,
`total_geral` is the sum of `valor` over all period donations, and
consequently `total_geral` equals the sum of the per-type totals. -/
theorem C7_resumo_financeiro_somas (db : List Doacao) (igreja_id : Nat)
    (data_inicio : Int) :
    (∀ tipo : String,
      (porTipo db igreja_id data_inicio tipo).1 =
          (((doacoesPeriodo db igreja_id data_inicio).filter
              (fun d => d.tipo == tipo)).map (fun d => d.valor)).sum ∧
        (porTipo db igreja_id data_inicio tipo).2 =
          ((doacoesPeriodo db igreja_id data_inicio).filter
              (fun d => d.tipo == tipo)).length) ∧
    total_geral db igreja_id data_inicio =
        ((doacoesPeriodo db igreja_id data_inicio).map (fun d => d.valor)).sum ∧
    total_geral db igreja_id data_inicio =
      ((((doacoesPeriodo db igreja_id data_inicio).map (fun d => d.tipo)).dedup).map
          (fun t => (porTipo db igreja_id data_inicio t).1)).sum := by
  refine ⟨fun tipo => ⟨rfl, rfl⟩, rfl, ?_⟩
  exact (sum_fibers_eq (fun d => d.tipo) (fun d => d.valor)
      ((doacoesPeriodo db igreja_id data_inicio).map (fun d => d.tipo)).dedup
      (List.nodup_dedup _)
      (doacoesPeriodo db igreja_id data_inicio)
      (fun d hd => List.mem_dedup.mpr (List.mem_map_of_mem _ hd))).symm

/-- C9: counseling text is stored only through `encrypt_data` (the schema
has only encrypted columns), and for every nonempty string, reading the
stored record through `decrypt_data` returns the original plaintext; the
Fernet library contract (decryption inverts encryption, tokens nonempty)
enters as hypotheses on the abstract cipher. -/
theorem C9_aconselhamento_cripto_roundtrip (F : FernetCipher)
    (hRT : ∀ t, F.dec (F.enc t) = some t) (hNE : ∀ t, F.enc t ≠ "")
    (s : String) (hs : s ≠ "") :
    decrypt_data F (encrypt_data F s) = s ∧
    (registrar_aconselhamento F (some s) (some s)).resumo_criptografado =
        some (F.enc s) ∧
    (registrar_aconselhamento F (some s) (some s)).notas_criptografadas =
        some (F.enc s) ∧
    lerResumo F (registrar_aconselhamento F (some s) (some s)) = some s := by
  have henc : encrypt_data F s = F.enc s := if_neg hs
  have hdec : decrypt_data F (F.enc s) = s := by
    simp [decrypt_data, hNE s, hRT s]
  refine ⟨by rw [henc, hdec], ?_, ?_, ?_⟩
  · simp [registrar_aconselhamento, encryptField, hs, henc]
  · simp [registrar_aconselhamento, encryptField, hs, henc]
  · simp [lerResumo, registrar_aconselhamento, encryptField, hs, henc, hdec]

/-- Witness for C9 at the concrete marker cipher and the plaintext
`"sigilo"`. -/
theorem C9_aconselhamento_cripto_roundtrip_witness :
    decrypt_data cifraTeste (encrypt_data cifraTeste "sigilo") = "sigilo" ∧
    (registrar_aconselhamento cifraTeste (some "sigilo")
        (some "sigilo")).resumo_criptografado = some (cifraTeste.enc "sigilo") ∧
    (registrar_aconselhamento cifraTeste (some "sigilo")
        (some "sigilo")).notas_criptografadas = some (cifraTeste.enc "sigilo") ∧
    lerResumo cifraTeste
        (registrar_aconselhamento cifraTeste (some "sigilo") (some "sigilo")) =
      some "sigilo" :=
  C9_aconselhamento_cripto_roundtrip cifraTeste (fun t => rfl)
    (fun t h => List.noConfusion (congrArg String.data h)) "sigilo" (by decide)

end CRMIgreja
